import Mathlib

/-!
Verification of `PROMICE_processing_tools.py` (Greenland bare ice albedo).

Sensor series are modelled as parallel lists: `doy : List ℤ` (the
`DayOfYear` column) and values `List (Option ℚ)` where `none` models a
missing sample (NaN, i.e. the `-999` sentinel after ingest).  Rationals
stand in for IEEE floats: every operation the claims touch is exact
(additions, subtractions, means of finitely many samples), so the float
behaviour coincides with ℚ except for rounding the spec itself waves away
("within floating tolerance").

NaN propagation follows numpy/pandas:
  * any comparison with NaN is `false` (so a `none` sample never satisfies
    a `z < c` or `z >= c` mask);
  * arithmetic with NaN yields NaN (`osub`);
  * `np.nanmean` ignores NaN and returns NaN for an empty selection
    (`nanmean` returns `none`).
-/

set_option autoImplicit false

namespace PROMICE

/-- Comparison `v < c` on an optional sample, `false` on NaN (numpy mask
semantics for `z < -0.06`). -/
def oLt (v : Option ℚ) (c : ℚ) : Bool :=
  match v with
  | some b => decide (b < c)
  | none => false

/-- Comparison `v >= c` on an optional sample, `false` on NaN (numpy mask
semantics for `z >= -3.2`). -/
def oGe (v : Option ℚ) (c : ℚ) : Bool :=
  match v with
  | some b => decide (c ≤ b)
  | none => false

/-- Comparison `d < a` of a day against an optional threshold; `false`
when the threshold is NaN (numpy mask semantics for `doy < IAO` when
`IAO = np.nan`). -/
def dLt (d : ℤ) (a : Option ℤ) : Bool :=
  match a with
  | some x => decide (d < x)
  | none => false

/-- Comparison `d > a` of a day against an optional threshold; `false`
when the threshold is NaN (numpy mask semantics for `doy > IAO` when
`IAO = np.nan`). -/
def dGt (d : ℤ) (a : Option ℤ) : Bool :=
  match a with
  | some x => decide (x < d)
  | none => false

/-- Elementwise `v - m` with NaN propagation: the result is missing when
either operand is (models `z -= np.nanmean(...)` acting on one sample). -/
def osub (v m : Option ℚ) : Option ℚ :=
  match v, m with
  | some b, some a => some (b - a)
  | _, _ => none

/-- Elementwise `m - v` with NaN propagation (models
`mean_boom_height - df_yr_comp.Height_sensor_boom_m` on one sample). -/
def osubR (m v : Option ℚ) : Option ℚ :=
  match m, v with
  | some a, some b => some (a - b)
  | _, _ => none

/-- Model of `np.nanmean`: mean of the non-missing samples, `none` (NaN)
when every sample is missing or the selection is empty. -/
def nanmean (l : List (Option ℚ)) : Option ℚ :=
  match l.filterMap id with
  | [] => none
  | vals => some (vals.sum / (vals.length : ℚ))

/-- Index of the first element satisfying `p`
(models `np.where(...)[0][0]`, `none` for the `IndexError` case). -/
def firstIdxWhere {α : Type} (p : α → Bool) : List α → Option ℕ
  | [] => none
  | x :: xs => if p x then some 0 else (firstIdxWhere p xs).map (· + 1)

/-- Values of `z` at the samples with `IAO - 45 < doy < IAO`
(line 945: `z[(doy < IAO) & (doy > IAO - 45)]`); empty when `IAO` is NaN. -/
def windowVals (doy : List ℤ) (z : List (Option ℚ)) (iao : Option ℤ) :
    List (Option ℚ) :=
  ((doy.zip z).filter
    (fun p => dLt p.1 iao && dGt p.1 (iao.map (· - 45)))).map Prod.snd

/-- Output tuple of `DPT_processing`
(line 958: `return z, albedo, DPT_flag, BID, albedo_flag`). -/
structure DPTOut where
  z : List (Option ℚ)
  albedo : List (Option ℚ)
  DPT_flag : ℕ
  BID : Option ℤ
  albedo_flag : ℕ
deriving Repr, DecidableEq

/-- Shared tail of `DPT_processing` (lines 930-958), run after the
per-station-year correction table has produced the corrected depth `z`,
`DPT_flag`, `IAO` (missing when never assigned) and `albedo_flag`:

* lines 930-931: `if DPT_flag != 3: IAO = np.nan`;
* lines 933-937: `albedo += 0.034`;
* lines 939-940: `if albedo_flag == 0: albedo[:] = np.nan`;
* lines 941-942: `if np.sum(np.isnan(albedo)) == len(albedo): albedo_flag = 0`;
* lines 944-945: `z -= np.nanmean(z[(doy < IAO) & (doy > IAO - 45)])`;
* lines 947-956: bare-ice-day detection
  `indx = np.where(z[doy > IAO] < -0.06)[0][0]; BID = doy[doy > IAO].iloc[indx]`
  guarded by `DPT_flag == 3 and albedo_flag == 1`, with the `IndexError`
  handler setting `BID = np.nan; albedo_flag = 0`. -/
def DPT_tail (doy : List ℤ) (z albedo : List (Option ℚ))
    (DPT_flag : ℕ) (IAO : Option ℤ) (albedo_flag : ℕ) : DPTOut :=
  let IAO1 : Option ℤ := if DPT_flag ≠ 3 then none else IAO
  let albedo1 := albedo.map (Option.map (· + 34/1000))
  let albedo2 := if albedo_flag = 0 then albedo1.map (fun _ => none) else albedo1
  let aflag1 := if albedo2.all Option.isNone then 0 else albedo_flag
  let m := nanmean (windowVals doy z IAO1)
  let z1 := z.map (fun v => osub v m)
  let after := (doy.zip z1).filter (fun p => dGt p.1 IAO1)
  let detect : Option ℤ × ℕ :=
    if DPT_flag = 3 ∧ aflag1 = 1 then
      match firstIdxWhere (fun v => oLt v (-6/100)) (after.map Prod.snd) with
      | some i => ((after.map Prod.fst).get? i, aflag1)
      | none => (none, 0)
    else (none, aflag1)
  ⟨z1, albedo2, DPT_flag, detect.1, detect.2⟩

/-- Correction entry for site `NUK_U`, year 2007 (lines 129-131):
`DPT_flag = 1`, no depth adjustment, `IAO` never assigned,
`albedo_flag` keeps its initial value 1 (line 122); composed with the
shared tail this is `DPT_processing` for that station-year. -/
def DPT_processing_NUK_U_2007 (doy : List ℤ) (z albedo : List (Option ℚ)) :
    DPTOut :=
  DPT_tail doy z albedo 1 none 1

/-- Correction entry for site `NUK_L`, year 2019 (lines 248-251):
`DPT_flag = 3`, `IAO = 97`, `albedo_flag = 0`, no depth adjustment;
composed with the shared tail this is `DPT_processing` for that
station-year. -/
def DPT_processing_NUK_L_2019 (doy : List ℤ) (z albedo : List (Option ℚ)) :
    DPTOut :=
  DPT_tail doy z albedo 3 (some 97) 0

/-- Depth corrections of the `KAN_L` 2009 entry (lines 433-438), applied
in table order to the current series state:
`z[(doy >= 250) & (z >= -3.2)] = np.nan`,
`z[(doy >= 260) & (np.isnan(z))] = -3.5`,
`assign_nans(276)`. -/
def corr_KAN_L_2009 (doy : List ℤ) (z : List (Option ℚ)) :
    List (Option ℚ) :=
  let z1 := List.zipWith
    (fun d v => if decide (250 ≤ d) && oGe v (-16/5) then none else v) doy z
  let z2 := List.zipWith
    (fun d v => if decide (260 ≤ d) && v.isNone then some (-7/2 : ℚ) else v)
    doy z1
  List.zipWith (fun d v => if d = 276 then none else v) doy z2

/-- Depth corrections of the `KAN_L` 2010 entry (lines 439-445), applied
in table order to the current series state:
`z[(doy >= 260) & (z >= -5.1)] = np.nan`,
`z[doy >= 280] -= 0.1`,
`z[(doy >= 260) & (np.isnan(z))] = -5.45`,
`assign_nans([136, 284])`. -/
def corr_KAN_L_2010 (doy : List ℤ) (z : List (Option ℚ)) :
    List (Option ℚ) :=
  let z1 := List.zipWith
    (fun d v => if decide (260 ≤ d) && oGe v (-51/10) then none else v) doy z
  let z2 := List.zipWith
    (fun d v => if decide (280 ≤ d) then v.map (· - 1/10) else v) doy z1
  let z3 := List.zipWith
    (fun d v => if decide (260 ≤ d) && v.isNone then some (-109/20 : ℚ) else v)
    doy z2
  List.zipWith (fun d v => if d = 136 || d = 284 then none else v) doy z3

/-- Modelled from the spec (the contrast drawn in "Must evaluate
predicates against the *current* (already partially corrected) series
state, not the original raw series"): the hypothetical variant of the
`KAN_L` 2009 entry whose adjustment predicates are evaluated against the
original raw series, for comparison with `corr_KAN_L_2009`. -/
def corr_KAN_L_2009_rawPredicates (doy : List ℤ) (z : List (Option ℚ)) :
    List (Option ℚ) :=
  let z1 := List.zipWith
    (fun d v => if decide (250 ≤ d) && oGe v (-16/5) then none else v) doy z
  List.zipWith
    (fun (d : ℤ) (p : Option ℚ × Option ℚ) =>
      if decide (260 ≤ d) && p.1.isNone then some (-7/2 : ℚ) else p.2)
    doy (z.zip z1)

/-- Modelled from the spec ("scan samples after approximate_onset_day in
ascending day order; BID = day-of-year of the first sample whose
corrected depth is below −0.06 m"): the specified bare-ice day of a
corrected depth series, to be compared with the BID computed by
`DPT_tail`. -/
def specBID (doy : List ℤ) (zc : List (Option ℚ)) (a : ℤ) : Option ℤ :=
  ((doy.zip zc).find?
    (fun p => decide (a < p.1) && oLt p.2 (-6/100))).map Prod.fst

/-- Samples of one variable with day-of-year in `[BID - dt, BID + dt]`
(lines 1186-1189:
`df_yr_comp = df_yr[(df_yr.DOY >= BID - dt) & (df_yr.DOY <= BID + dt)]`). -/
def windowRows (doy : List ℤ) (vals : List (Option ℚ)) (b : ℤ) (dt : ℕ) :
    List (Option ℚ) :=
  ((doy.zip vals).filter
    (fun p => decide (b - dt ≤ p.1) && decide (p.1 ≤ b + dt))).map Prod.snd

/-- One variable's composite row: the extracted window right-padded with
missing rows up to `time_span = 2*dt + 1` (lines 1194-1200; the appended
`pd.DataFrame(to_append)` has fresh integer column names, so under
pandas column alignment every named variable column receives NaN in the
appended rows).  When the window already exceeds `time_span` the source
raises (`np.zeros` with a negative dimension); that case is unreachable
for strictly increasing day-of-year values, and the theorems below carry
that hypothesis. -/
def compositeRow (doy : List ℤ) (vals : List (Option ℚ)) (b : ℤ) (dt : ℕ) :
    List (Option ℚ) :=
  let w := windowRows doy vals b dt
  w ++ List.replicate (2 * dt + 1 - w.length) none

/-- Column labels of the composite output,
`np.arange(-dt, time_span - dt)` (line 1325). -/
def compositeColumns (dt : ℕ) : List ℤ :=
  (List.range (2 * dt + 1)).map (fun i : ℕ => (i : ℤ) - (dt : ℤ))

/-- Boom-height re-baselining of a padded composite row
(lines 1202-1207): `mean_boom_height` is the nanmean of the positional
slice `[dt+10 : dt+30]` (a Python slice, hence positions `dt+10` up to
and excluding `dt+30`), and the row becomes
`mean_boom_height - row` elementwise. -/
def boomTransform (dt : ℕ) (row : List (Option ℚ)) : List (Option ℚ) :=
  let m := nanmean ((row.drop (dt + 10)).take ((dt + 30) - (dt + 10)))
  row.map (fun v => osubR m v)

/-- Per-station-year slice of the processed table `promice_data_proc` as
consumed by `BIC_composite` (lines 1181-1189): the per-year constant
columns `DPT_flag`, `Albedo_flag`, `BID` read through `.iloc[0]` are
scalars here, and the series columns are parallel lists. -/
structure ProcRecord where
  doy : List ℤ
  DPT_flag : ℕ
  albedo_flag : ℕ
  BID : Option ℤ
  DPT_proc : List (Option ℚ)
  air_temp : List (Option ℚ)
  albedo : List (Option ℚ)
  boom : List (Option ℚ)

/-- Assembly of one year's `ProcRecord` from the `DPT_processing` output
(lines 1027-1037: `DPT_proc, albedo, DPT_flag, BID, albedo_flag`
broadcast into the per-year columns, plus air temperature and boom
height copied from the raw frame). -/
def mkProcRecord (doy : List ℤ) (o : DPTOut) (airT boom : List (Option ℚ)) :
    ProcRecord :=
  ⟨doy, o.DPT_flag, o.albedo_flag, o.BID, o.z, airT, o.albedo, boom⟩

/-- The record was produced by `DPT_processing`, i.e. it is the
`mkProcRecord` image of some `DPT_tail` run. -/
def isDPTOutputRecord (r : ProcRecord) : Prop :=
  ∃ doy z albedo flag iao aflag airT boom,
    r = mkProcRecord doy (DPT_tail doy z albedo flag iao aflag) airT boom

/-- Composite qualification filter (line 1183:
`if df_yr.DPT_flag.iloc[0] == 3 and df_yr.Albedo_flag.iloc[0] == 1`). -/
def BIC_selected (recs : List (String × ProcRecord)) :
    List (String × ProcRecord) :=
  recs.filter (fun r => r.2.DPT_flag == 3 && r.2.albedo_flag == 1)

/-- Row index of the composite output: the station-year labels collected
inside the qualification guard (lines 1184-1185, 1320, 1325). -/
def compositeIndex (recs : List (String × ProcRecord)) : List String :=
  (BIC_selected recs).map Prod.fst

/-- The `variables` dictionary of `BIC_composite` (lines 1154-1159),
mapping output variable names to the columns of the processed table. -/
def BIC_variables : List (String × String) :=
  [("air_temperature_degrees", "Air_temperature_C"),
   ("ice_ablation_meters", "DPT_proc"),
   ("snow_height_meters", "Height_sensor_boom_m"),
   ("albedo_unitless", "Albedo_theta_inf_70d")]

/-- Model of a pandas DataFrame as an ordered association list from
column name to column values (all columns the same length). -/
def Frame := List (String × List (Option ℚ))

/-- Number of rows of a frame (length of its first column). -/
def Frame.numRows : Frame → ℕ
  | [] => 0
  | c :: _ => c.2.length

/-- Column lookup, `none` when the frame has no such column. -/
def Frame.col? (f : Frame) (c : String) : Option (List (Option ℚ)) :=
  (f.find? (fun p => p.1 == c)).map Prod.snd

/-- Column lookup with pandas alignment semantics: a missing column
reads as all-NaN. -/
def Frame.colOrNaN (f : Frame) (c : String) : List (Option ℚ) :=
  match f.col? c with
  | some v => v
  | none => List.replicate f.numRows none

/-- pandas `DataFrame.append` (line 1070): the result has the union of
the two column sets, and a column absent from one operand is NaN-filled
on that operand's rows. -/
def Frame.append (f g : Frame) : Frame :=
  let cols :=
    f.map Prod.fst ++
      (g.map Prod.fst).filter (fun c => !(f.map Prod.fst).contains c)
  cols.map (fun c => (c, f.colOrNaN c ++ g.colOrNaN c))

/-- The data of one processed year before it is put into a frame:
everything computed in one iteration of the `BIC_processing` year loop
(lines 1024-1037). -/
structure YearData where
  DPT_proc : List (Option ℚ)
  DPT_flag : ℕ
  BID : Option ℤ
  doy : List ℤ
  year : ℤ
  air_temp : List (Option ℚ)
  albedo : List (Option ℚ)
  albedo_flag : ℕ
  boom : List (Option ℚ)

/-- Day-of-year column stored as rationals in a frame. -/
def qcol (l : List ℤ) : List (Option ℚ) := l.map (fun x => some (x : ℚ))

/-- A broadcast scalar column (`np.zeros(len); arr[:] = c`). -/
def constCol (n : ℕ) (c : ℚ) : List (Option ℚ) := List.replicate n (some c)

/-- A broadcast optional scalar column (the `BID` column: NaN when the
bare-ice day is missing). -/
def optCol (n : ℕ) (c : Option ℤ) : List (Option ℚ) :=
  List.replicate n (c.map (fun x => (x : ℚ)))

/-- Per-year block of `promice_data_proc` (lines 1040-1070).  The first
processed year (`i == 0`, lines 1041-1053) stores boom height under the
column name `HeightSensorBoom_m` (line 1051); every subsequent year
(lines 1056-1068) stores it under `Height_sensor_boom_m` (line 1066);
the eight other columns share their names. -/
def procFrame (first : Bool) (d : YearData) : Frame :=
  let n := d.DPT_proc.length
  [("DPT_proc", d.DPT_proc),
   ("DPT_flag", constCol n d.DPT_flag),
   ("BID", optCol n d.BID),
   ("DOY", qcol d.doy),
   ("Year", constCol n (d.year : ℚ)),
   ("Air_temperature_C", d.air_temp),
   ("Albedo_theta_inf_70d", d.albedo),
   ("Albedo_flag", constCol n d.albedo_flag),
   (if first then "HeightSensorBoom_m" else "Height_sensor_boom_m", d.boom)]

/-- The multi-year branch of `BIC_processing` (lines 1022-1070): build
the first year's frame, then `append` every subsequent year's frame. -/
def BIC_processing_loop (ds : List YearData) : Frame :=
  match ds with
  | [] => []
  | d :: rest =>
      rest.foldl (fun acc d2 => Frame.append acc (procFrame false d2))
        (procFrame true d)

/-- Total number of rows contributed by a list of processed years. -/
def rowsTotal (ds : List YearData) : ℕ :=
  (ds.map (fun d => d.DPT_proc.length)).sum

/-- The ten column names of the multi-year processed table: the nine
columns of the first year's frame plus the variant boom-height name
introduced by the second year's frame. -/
def NAMES10 : List String :=
  ["DPT_proc", "DPT_flag", "BID", "DOY", "Year", "Air_temperature_C",
   "Albedo_theta_inf_70d", "Albedo_flag", "HeightSensorBoom_m",
   "Height_sensor_boom_m"]

/-- The `year` argument of `load_data`, dispatched on at line 1013
(`if yr == "all" or isinstance(yr, list)`). -/
inductive YearSel where
  | all : YearSel
  | yearList : List ℤ → YearSel
  | single : ℤ → YearSel

/-- Branch structure of `BIC_processing` (lines 1013-1116).  `process1`
abstracts one loop-body iteration (filter the year's rows, run
`DPT_processing`, collect the per-year columns).  On the single-year
path (lines 1075-1111) the loop variable `y` is read at line 1081
(`DPT_processing(df=df_y, year=int(y))`) but assigned only by the
multi-year loop at line 1022, so on this path it is an unassigned local,
modelled as `none`; reading it raises `UnboundLocalError`. -/
def BIC_processing (process1 : ℤ → YearData) (availableYears : List ℤ)
    (sel : YearSel) : Except String Frame :=
  match sel with
  | .all => Except.ok (BIC_processing_loop (availableYears.map process1))
  | .yearList l => Except.ok (BIC_processing_loop (l.map process1))
  | .single _ =>
      let y : Option ℤ := none
      match y with
      | some yv => Except.ok (procFrame true (process1 yv))
      | none =>
          Except.error
            "UnboundLocalError: local variable y referenced before assignment"

/-! ## Helper lemmas -/

theorem osub_none (v : Option ℚ) : osub v none = none := by
  cases v <;> rfl

theorem osub_some (v : Option ℚ) (a : ℚ) :
    osub v (some a) = v.map (· - a) := by
  cases v <;> rfl

theorem osubR_none_right (m : Option ℚ) (v : Option ℚ) (hv : v = none) :
    osubR m v = none := by
  cases m <;> simp [osubR, hv]

theorem osubR_some (a : ℚ) (v : Option ℚ) :
    osubR (some a) v = v.map (a - ·) := by
  cases v <;> rfl

theorem dLt_none (d : ℤ) : dLt d none = false := rfl

theorem windowVals_iao_none (doy : List ℤ) (z : List (Option ℚ)) :
    windowVals doy z none = [] := by
  unfold windowVals
  simp [dLt_none]

theorem firstIdxWhere_lt_length {α : Type} (p : α → Bool) :
    ∀ (l : List α) (i : ℕ), firstIdxWhere p l = some i → i < l.length := by
  intro l
  induction l with
  | nil => intro i h; simp [firstIdxWhere] at h
  | cons x xs ih =>
      intro i h
      by_cases hx : p x
      · simp [firstIdxWhere, hx] at h
        simp [← h]
      · simp only [firstIdxWhere, hx, if_neg, Bool.false_eq_true,
          ite_false, Option.map_eq_some'] at h
        obtain ⟨j, hj, rfl⟩ := h
        have := ih j hj
        simp only [List.length_cons]
        omega

theorem filterMap_id_map_optionMap (f : ℚ → ℚ) :
    ∀ l : List (Option ℚ),
      (l.map (Option.map f)).filterMap id = (l.filterMap id).map f
  | [] => rfl
  | x :: xs => by
      cases x <;> simp [filterMap_id_map_optionMap f xs]

theorem sum_map_sub_const (μ : ℚ) :
    ∀ l : List ℚ, (l.map (· - μ)).sum = l.sum - l.length * μ
  | [] => by simp
  | x :: xs => by
      simp only [List.map_cons, List.sum_cons, List.length_cons,
        sum_map_sub_const μ xs]
      push_cast
      ring

theorem sum_map_const_sub (μ : ℚ) :
    ∀ l : List ℚ, (l.map (μ - ·)).sum = l.length * μ - l.sum
  | [] => by simp
  | x :: xs => by
      simp only [List.map_cons, List.sum_cons, List.length_cons,
        sum_map_const_sub μ xs]
      push_cast
      ring

theorem nanmean_eq_some (l : List (Option ℚ)) (h : l.filterMap id ≠ []) :
    nanmean l
      = some ((l.filterMap id).sum / ((l.filterMap id).length : ℚ)) := by
  unfold nanmean
  cases hv : l.filterMap id with
  | nil => exact absurd hv h
  | cons a t => rfl

theorem nanmean_center (l : List (Option ℚ)) (h : l.filterMap id ≠ []) :
    nanmean (l.map (fun v => osub v (nanmean l))) = some 0 := by
  have hm : nanmean l
      = some ((l.filterMap id).sum / ((l.filterMap id).length : ℚ)) :=
    nanmean_eq_some l h
  have hsub : l.map (fun v => osub v (nanmean l))
      = l.map (Option.map
          (· - (l.filterMap id).sum / ((l.filterMap id).length : ℚ))) := by
    apply List.map_congr_left
    intro v _
    rw [hm, osub_some]
  rw [hsub]
  have h2 : (l.map (Option.map
        (· - (l.filterMap id).sum / ((l.filterMap id).length : ℚ)))).filterMap
        id
      = (l.filterMap id).map
          (· - (l.filterMap id).sum / ((l.filterMap id).length : ℚ)) :=
    filterMap_id_map_optionMap _ l
  have hne : (l.filterMap id).map
        (· - (l.filterMap id).sum / ((l.filterMap id).length : ℚ)) ≠ [] := by
    simpa using h
  rw [nanmean_eq_some _ (by rw [h2]; exact hne)]
  rw [h2, sum_map_sub_const, List.length_map]
  have hn : ((l.filterMap id).length : ℚ) ≠ 0 := by
    have : l.filterMap id ≠ [] := h
    simpa [List.length_eq_zero] using this
  congr 1
  field_simp

theorem nanmean_centerR (l : List (Option ℚ)) (h : l.filterMap id ≠ []) :
    nanmean (l.map (fun v => osubR (nanmean l) v)) = some 0 := by
  have hm : nanmean l
      = some ((l.filterMap id).sum / ((l.filterMap id).length : ℚ)) :=
    nanmean_eq_some l h
  have hsub : l.map (fun v => osubR (nanmean l) v)
      = l.map (Option.map
          ((l.filterMap id).sum / ((l.filterMap id).length : ℚ) - ·)) := by
    apply List.map_congr_left
    intro v _
    rw [hm, osubR_some]
  rw [hsub]
  have h2 := filterMap_id_map_optionMap
    ((l.filterMap id).sum / ((l.filterMap id).length : ℚ) - ·) l
  have hne : (l.filterMap id).map
        ((l.filterMap id).sum / ((l.filterMap id).length : ℚ) - ·) ≠ [] := by
    simpa using h
  rw [nanmean_eq_some _ (by rw [h2]; exact hne)]
  rw [h2, sum_map_const_sub, List.length_map]
  have hn : ((l.filterMap id).length : ℚ) ≠ 0 := by
    have : l.filterMap id ≠ [] := h
    simpa [List.length_eq_zero] using this
  congr 1
  field_simp

theorem windowVals_map (doy : List ℤ) (z : List (Option ℚ)) (iao : Option ℤ)
    (f : Option ℚ → Option ℚ) :
    windowVals doy (z.map f) iao = (windowVals doy z iao).map f := by
  unfold windowVals
  rw [List.zip_map_right, List.filter_map]
  have hpred : ((fun p : ℤ × Option ℚ =>
        dLt p.1 iao && dGt p.1 (iao.map (· - 45))) ∘ Prod.map id f)
      = (fun p : ℤ × Option ℚ => dLt p.1 iao && dGt p.1 (iao.map (· - 45))) := by
    funext p
    cases p
    rfl
  rw [hpred, List.map_map, List.map_map]
  rfl

theorem find?_filter_eq_find?_and {α : Type} (q p : α → Bool) :
    ∀ l : List α, (l.filter q).find? p = l.find? (fun x => q x && p x)
  | [] => rfl
  | x :: xs => by
      by_cases hq : q x
      · by_cases hp : p x
        · simp [List.filter_cons, hq, List.find?_cons, hp]
        · simp [List.filter_cons, hq, List.find?_cons, hp,
            find?_filter_eq_find?_and q p xs]
      · simp [List.filter_cons, hq, List.find?_cons,
          find?_filter_eq_find?_and q p xs]

/-- The index-based detection of lines 950-951 (`np.where` position, then
`.iloc` on the day series filtered by the same mask) agrees with a direct
first-match search on the paired series, and its success is the success
of that search. -/
theorem detect_components {β : Type} (p : β → Bool) (k : ℕ) :
    ∀ l : List (ℤ × β),
      (match firstIdxWhere p (l.map Prod.snd) with
       | some i => (((l.map Prod.fst).get? i : Option ℤ), k)
       | none => ((none : Option ℤ), 0))
        = ((l.find? (fun q => p q.2)).map Prod.fst,
           match l.find? (fun q => p q.2) with
           | some _ => k
           | none => 0)
  | [] => rfl
  | x :: xs => by
      by_cases hx : p x.2
      · simp [firstIdxWhere, hx, List.find?_cons]
      · have hfi : firstIdxWhere p ((x :: xs).map Prod.snd)
            = (firstIdxWhere p (xs.map Prod.snd)).map (· + 1) := by
          simp [firstIdxWhere, hx]
        have hfd : (x :: xs).find? (fun q => p q.2)
            = xs.find? (fun q => p q.2) := by
          simp [List.find?_cons, hx]
        rw [hfi, hfd]
        have ih := detect_components p k xs
        cases hfj : firstIdxWhere p (xs.map Prod.snd) with
        | none =>
            rw [hfj] at ih
            simpa using ih
        | some j =>
            rw [hfj] at ih
            simpa [List.get?_cons_succ] using ih

theorem firstIdxWhere_map {α β : Type} (p : β → Bool) (f : α → β) :
    ∀ l : List α,
      firstIdxWhere p (l.map f) = firstIdxWhere (fun x => p (f x)) l
  | [] => rfl
  | x :: xs => by
      by_cases hx : p (f x) <;>
        simp [firstIdxWhere, hx, firstIdxWhere_map p f xs]

theorem find?_eq_getElem?_of_firstIdxWhere {α : Type} (p : α → Bool) :
    ∀ (l : List α) (i : ℕ), firstIdxWhere p l = some i → l.find? p = l[i]?
  | [], i => by intro h; simp [firstIdxWhere] at h
  | x :: xs, i => by
      intro h
      by_cases hx : p x
      · simp only [firstIdxWhere, hx, ite_true, Option.some.injEq] at h
        simp [List.find?_cons, hx, ← h]
      · simp only [firstIdxWhere, hx, Bool.false_eq_true, ite_false,
          Option.map_eq_some'] at h
        obtain ⟨j, hj, rfl⟩ := h
        simp [List.find?_cons, hx,
          find?_eq_getElem?_of_firstIdxWhere p xs j hj]

theorem find?_eq_none_of_firstIdxWhere_none {α : Type} (p : α → Bool) :
    ∀ l : List α, firstIdxWhere p l = none → l.find? p = none
  | [] => by intro _; rfl
  | x :: xs => by
      intro h
      by_cases hx : p x
      · simp [firstIdxWhere, hx] at h
      · simp only [firstIdxWhere, hx, Bool.false_eq_true, ite_false,
          Option.map_eq_none'] at h
        simp [List.find?_cons, hx, find?_eq_none_of_firstIdxWhere_none p xs h]

/-! ## C3: confidence flag not 3 forces a missing BID -/

/-- C3: for every run of `DPT_processing` whose confidence flag is not 3,
the returned BID is missing, regardless of the depth samples: line 948
guards detection by `DPT_flag == 3`, and the `else` branch (lines
955-956) sets `BID = np.nan`. -/
theorem DPT_flag_ne3_BID_missing (doy : List ℤ) (z albedo : List (Option ℚ))
    (flag : ℕ) (iao : Option ℤ) (aflag : ℕ) (h : flag ≠ 3) :
    (DPT_tail doy z albedo flag iao aflag).BID = none := by
  unfold DPT_tail
  simp [h]

/-- Witness: a flag-2 station-year whose baselined depth would cross the
−0.06 m threshold after day 100 still gets a missing BID. -/
theorem DPT_flag_ne3_BID_missing_witness :
    (DPT_tail [10, 200] [some 0, some (-1)] [some 1, some 1] 2
        (some 100) 1).BID = none :=
  DPT_flag_ne3_BID_missing [10, 200] [some 0, some (-1)] [some 1, some 1] 2
    (some 100) 1 (by decide)

/-! ## C1: flag ≠ 3 runs, corrected -/

/-- C1 (amended): for every run of `DPT_processing` whose confidence flag
is not 3, BID detection is skipped (BID missing) and no exception is
raised, but the depth series is NOT passed through unmodified: line 945
still executes with `IAO = np.nan`, so it subtracts
`np.nanmean` of an empty selection — NaN — and the returned depth series
is entirely missing. -/
theorem DPT_flag_ne3_depth_all_missing (doy : List ℤ)
    (z albedo : List (Option ℚ)) (flag : ℕ) (iao : Option ℤ) (aflag : ℕ)
    (h : flag ≠ 3) :
    (DPT_tail doy z albedo flag iao aflag).z = z.map (fun _ => none) ∧
    (DPT_tail doy z albedo flag iao aflag).BID = none := by
  unfold DPT_tail
  simp only [if_pos h, windowVals_iao_none]
  constructor
  · show z.map (fun v => osub v (nanmean [])) = z.map (fun _ => none)
    apply List.map_congr_left
    intro v _
    exact osub_none v
  · simp [h]

/-- Witness for the amended C1 at a concrete flag-1 input. -/
theorem DPT_flag_ne3_depth_all_missing_witness :
    (DPT_tail [100] [some 1] [some 1] 1 none 1).z
        = ([some 1] : List (Option ℚ)).map (fun _ => none) ∧
    (DPT_tail [100] [some 1] [some 1] 1 none 1).BID = none :=
  DPT_flag_ne3_depth_all_missing [100] [some 1] [some 1] 1 none 1
    (by decide)

/-- C1 counterexample: station NUK_U, year 2007 (confidence flag 1),
with a single valid depth sample at day 100: `DPT_processing` does not
return the depth series unmodified — the sample comes back missing. -/
theorem NUK_U_2007_depth_not_unmodified :
    (DPT_processing_NUK_U_2007 [100] [some 1] [some (1/2)]).z = [none] ∧
    (DPT_processing_NUK_U_2007 [100] [some 1] [some (1/2)]).z
      ≠ [some 1] := by
  constructor
  · rfl
  · decide

/-! ## C2: BID detection under confidence flag 3, corrected -/

/-- C2 (amended): for every run of `DPT_processing` with confidence flag
3 whose albedo flag is still valid after the bias/all-missing check
(lines 937-942), the returned BID equals the day-of-year of the first
sample strictly after `approximate_onset_day` whose baselined depth is
below −0.06 m (`specBID`); and if no such sample exists, BID is missing
and the albedo flag is set invalid.  (Detection additionally requires
the valid albedo flag — line 948 — which the original claim omitted.) -/
theorem DPT_flag3_valid_albedo_BID_eq_specBID (doy : List ℤ)
    (z albedo : List (Option ℚ)) (a : ℤ)
    (hA : (albedo.map (Option.map (· + 34/1000))).all Option.isNone
        = false) :
    (DPT_tail doy z albedo 3 (some a) 1).BID
        = specBID doy (DPT_tail doy z albedo 3 (some a) 1).z a ∧
    (specBID doy (DPT_tail doy z albedo 3 (some a) 1).z a = none →
      (DPT_tail doy z albedo 3 (some a) 1).albedo_flag = 0) := by
  have hpredeq : (fun x : ℤ × Option ℚ =>
        dGt x.1 (some a) && oLt x.2 (-6/100))
      = (fun p : ℤ × Option ℚ =>
        decide (a < p.1) && oLt p.2 (-6/100)) := rfl
  have hfind : ∀ z1 : List (Option ℚ),
      ((List.filter (fun p => dGt p.1 (some a)) (doy.zip z1)).find?
          (fun q => oLt q.2 (-6/100))).map Prod.fst
        = specBID doy z1 a := by
    intro z1
    rw [find?_filter_eq_find?_and, hpredeq]
    rfl
  have hz : (DPT_tail doy z albedo 3 (some a) 1).z
      = z.map (fun v => osub v (nanmean (windowVals doy z (some a)))) := rfl
  constructor
  · unfold DPT_tail
    simp [hA]
    rw [firstIdxWhere_map]
    cases hfi : firstIdxWhere
        (fun x : ℤ × Option ℚ => oLt x.2 (-6/100))
        (List.filter (fun p => dGt p.1 (some a))
          (doy.zip (List.map
            (fun v => osub v (nanmean (windowVals doy z (some a)))) z))) with
    | none =>
        have := find?_eq_none_of_firstIdxWhere_none _ _ hfi
        rw [← hfind]
        simp [this]
    | some i =>
        have := find?_eq_getElem?_of_firstIdxWhere _ _ _ hfi
        rw [← hfind]
        simp [this]
  · intro hnone
    rw [hz, ← hfind] at hnone
    unfold DPT_tail
    simp [hA]
    rw [firstIdxWhere_map]
    cases hfi : firstIdxWhere
        (fun x : ℤ × Option ℚ => oLt x.2 (-6/100))
        (List.filter (fun p => dGt p.1 (some a))
          (doy.zip (List.map
            (fun v => osub v (nanmean (windowVals doy z (some a)))) z))) with
    | none => simp
    | some i =>
        exfalso
        have hfe := find?_eq_getElem?_of_firstIdxWhere _ _ _ hfi
        have hlt : i < (List.filter (fun p => dGt p.1 (some a))
            (doy.zip (List.map
              (fun v => osub v (nanmean (windowVals doy z (some a))))
              z))).length := by
          have hb := firstIdxWhere_lt_length _ _ _ hfi
          simpa using hb
        rw [hfe, List.getElem?_eq_getElem hlt] at hnone
        simp at hnone

/-- Witness for the amended C2: flag 3, valid albedo, onset day 97,
first crossing strictly after day 97 at day 100. -/
theorem DPT_flag3_valid_albedo_BID_eq_specBID_witness :
    (DPT_tail [60, 100] [some 0, some (-1)] [some 1, some 1] 3
        (some 97) 1).BID
      = specBID [60, 100]
          (DPT_tail [60, 100] [some 0, some (-1)] [some 1, some 1] 3
            (some 97) 1).z 97 ∧
    (specBID [60, 100]
        (DPT_tail [60, 100] [some 0, some (-1)] [some 1, some 1] 3
          (some 97) 1).z 97 = none →
      (DPT_tail [60, 100] [some 0, some (-1)] [some 1, some 1] 3
          (some 97) 1).albedo_flag = 0) :=
  DPT_flag3_valid_albedo_BID_eq_specBID [60, 100] [some 0, some (-1)]
    [some 1, some 1] 97 (by decide)

/-- C2 counterexample: station NUK_L, year 2019 has confidence flag 3
but `albedo_flag = 0`; with onset day 97 and a baselined depth that
first drops below −0.06 m at day 100, the spec's detection yields day
100, yet `DPT_processing` returns a missing BID because line 948 also
requires a valid albedo flag. -/
theorem NUK_L_2019_BID_skipped_despite_crossing :
    (DPT_processing_NUK_L_2019 [60, 100] [some 0, some (-1)]
        [some 1, some 1]).BID = none ∧
    specBID [60, 100]
        (DPT_processing_NUK_L_2019 [60, 100] [some 0, some (-1)]
          [some 1, some 1]).z 97 = some 100 := by
  constructor
  · rfl
  · show specBID [60, 100]
        (DPT_tail [60, 100] [some 0, some (-1)] [some 1, some 1] 3
          (some 97) 0).z 97 = some 100
    norm_num [specBID, DPT_tail, windowVals, nanmean, osub, oLt, dGt, dLt,
      List.find?, List.filter, List.filterMap_cons, List.filterMap_nil]

/-! ## C7: baselining null-centres the pre-onset window -/

/-- C7: for every run of `DPT_processing` with confidence flag 3 whose
depth series has at least one non-missing sample with day-of-year
strictly between `approximate_onset_day - 45` and
`approximate_onset_day`, the corrected depth series has mean exactly 0
over that open window (line 945 subtracts precisely that window's
nanmean from the whole series). -/
theorem DPT_flag3_baselined_window_mean_zero (doy : List ℤ)
    (z albedo : List (Option ℚ)) (a : ℤ) (aflag : ℕ)
    (h : (windowVals doy z (some a)).filterMap id ≠ []) :
    nanmean (windowVals doy
        (DPT_tail doy z albedo 3 (some a) aflag).z (some a)) = some 0 := by
  have hz : (DPT_tail doy z albedo 3 (some a) aflag).z
      = z.map (fun v => osub v (nanmean (windowVals doy z (some a)))) := rfl
  rw [hz, windowVals_map]
  exact nanmean_center _ h

/-- Witness for C7: onset day 97, one valid pre-onset sample at day 60. -/
theorem DPT_flag3_baselined_window_mean_zero_witness :
    nanmean (windowVals [60, 100]
        (DPT_tail [60, 100] [some 2, some (-1)] [some 1, some 1] 3
          (some 97) 1).z (some 97)) = some 0 :=
  DPT_flag3_baselined_window_mean_zero [60, 100] [some 2, some (-1)]
    [some 1, some 1] 97 1 (by decide)

/-! ## C8: adjustments run in table order on the current series state -/

/-- C8: the `KAN_L` 2009 and 2010 adjustments are applied in the entry's
fixed table order and each predicate reads the current, already
partially corrected series: a day-265 sample excluded by the preceding
value-predicated rule (raw value −3.0 ≥ −3.2, resp. −5.0 ≥ −5.1) is
caught by the following missing-sample rule and set to the constant
−3.5 (resp. −5.45); under the hypothetical raw-series-predicate
semantics the same sample would stay missing. -/
theorem KAN_L_adjustments_apply_to_current_state :
    corr_KAN_L_2009 [265] [some (-3)] = [some (-7/2)] ∧
    corr_KAN_L_2010 [265] [some (-5)] = [some (-109/20)] ∧
    corr_KAN_L_2009_rawPredicates [265] [some (-3)] = [none] := by
  refine ⟨?_, ?_, ?_⟩
  · norm_num [corr_KAN_L_2009, oGe]
  · norm_num [corr_KAN_L_2010, oGe]
  · norm_num [corr_KAN_L_2009_rawPredicates, oGe]
    intro h
    exact absurd h (by simp)

/-! ## C4: composite rows restricted to flag-3, valid-albedo, detected BID -/

/-- Detection invariant of lines 947-956: when the flag is 3 and the
returned albedo flag is 1, the detection must have succeeded, so the
returned BID is a day of the filtered series, hence non-missing. -/
theorem detect_invariant (flag aflag1 : ℕ) (after : List (ℤ × Option ℚ))
    (hf : flag = 3)
    (h2 : (if flag = 3 ∧ aflag1 = 1 then
        match firstIdxWhere (fun v => oLt v (-6/100)) (after.map Prod.snd) with
        | some i => (((after.map Prod.fst).get? i : Option ℤ), aflag1)
        | none => (none, 0)
      else (none, aflag1)).2 = 1) :
    (if flag = 3 ∧ aflag1 = 1 then
        match firstIdxWhere (fun v => oLt v (-6/100)) (after.map Prod.snd) with
        | some i => (((after.map Prod.fst).get? i : Option ℤ), aflag1)
        | none => (none, 0)
      else (none, aflag1)).1 ≠ none := by
  by_cases hg : flag = 3 ∧ aflag1 = 1
  · rw [if_pos hg] at h2 ⊢
    cases hfi : firstIdxWhere (fun v => oLt v (-6/100))
        (after.map Prod.snd) with
    | none => rw [hfi] at h2; simp at h2
    | some i =>
        have hlt : i < (after.map Prod.snd).length :=
          firstIdxWhere_lt_length _ _ _ hfi
        rw [List.length_map] at hlt
        have hsome : ((after.map Prod.fst).get? i).isSome := by
          rw [List.get?_eq_getElem?]
          simp [List.getElem?_map, List.getElem?_eq_getElem hlt]
        show ((after.map Prod.fst).get? i) ≠ none
        simp only [ne_eq, ← Option.isSome_iff_ne_none]
        exact hsome
  · rw [if_neg hg] at h2
    exact absurd ⟨hf, h2⟩ hg

/-- The `DPT_processing` output invariant: flag 3 together with a valid
returned albedo flag forces a detected (non-missing) BID. -/
theorem DPT_tail_flag3_valid_BID_ne_none (doy : List ℤ)
    (z albedo : List (Option ℚ)) (iao : Option ℤ) (aflag : ℕ)
    (ha : (DPT_tail doy z albedo 3 iao aflag).albedo_flag = 1) :
    (DPT_tail doy z albedo 3 iao aflag).BID ≠ none :=
  detect_invariant 3 _ _ rfl ha

/-- C4: every station-year label in the composite row index comes from a
record with confidence flag 3, a valid albedo flag and a non-missing
BID; a station-year with an invalid albedo flag or a missing BID never
appears in the output row index (line 1183 filters on the two flags, and
the `DPT_processing` invariant rules out a missing BID there). -/
theorem composite_index_only_flag3_valid_detected
    (recs : List (String × ProcRecord))
    (h : ∀ r ∈ recs, isDPTOutputRecord r.2) :
    ∀ nm ∈ compositeIndex recs, ∃ r ∈ recs,
      r.1 = nm ∧ r.2.DPT_flag = 3 ∧ r.2.albedo_flag = 1 ∧
        r.2.BID ≠ none := by
  intro nm hnm
  obtain ⟨r, hrsel, rfl⟩ := List.mem_map.1 hnm
  have hrmem : r ∈ recs := List.mem_of_mem_filter hrsel
  have hcond := List.of_mem_filter hrsel
  simp only [Bool.and_eq_true, beq_iff_eq] at hcond
  obtain ⟨hflag, haf⟩ := hcond
  refine ⟨r, hrmem, rfl, hflag, haf, ?_⟩
  obtain ⟨doy, z, albedo, flag, iao, aflag, airT, boom, hr⟩ := h r hrmem
  rw [hr] at hflag haf ⊢
  have hflag3 : flag = 3 := hflag
  subst hflag3
  exact DPT_tail_flag3_valid_BID_ne_none doy z albedo iao aflag haf

/-- Witness for C4: a one-record list built from a concrete
`DPT_processing` run (flag 3, valid albedo, BID detected at day 100)
appears in the composite index with all three properties. -/
theorem composite_index_only_flag3_valid_detected_witness :
    ∃ r ∈ [("NUK_L_2012",
        mkProcRecord [60, 100]
          (DPT_tail [60, 100] [some 0, some (-1)] [some 1, some 1] 3
            (some 97) 1)
          [some 1, some 1] [some 2, some 2])], r.1 = "NUK_L_2012" ∧
      r.2.DPT_flag = 3 ∧ r.2.albedo_flag = 1 ∧ r.2.BID ≠ none :=
  composite_index_only_flag3_valid_detected _
    (by
      intro r hr
      simp only [List.mem_singleton] at hr
      subst hr
      exact ⟨[60, 100], [some 0, some (-1)], [some 1, some 1], 3,
        some 97, 1, [some 1, some 1], [some 2, some 2], rfl⟩)
    "NUK_L_2012"
    (by
      have haf : (DPT_tail [60, 100] [some 0, some (-1)] [some 1, some 1] 3
          (some 97) 1).albedo_flag = 1 := by
        norm_num [DPT_tail, windowVals, nanmean, osub, oLt, dGt, dLt,
          firstIdxWhere, List.filterMap_cons, List.filterMap_nil,
          List.filter]
      have hfl : (DPT_tail [60, 100] [some 0, some (-1)] [some 1, some 1] 3
          (some 97) 1).DPT_flag = 3 := rfl
      simp [compositeIndex, BIC_selected, List.filter, mkProcRecord, haf,
        hfl])

/-! ## C10: single-integer-year processing always raises -/

/-- C10: for every input processed with a single integer year (the
`year` argument neither the string `all` nor a list), `BIC_processing`
raises `UnboundLocalError` — the loop variable `y` used at the
single-year `DPT_processing` call (line 1081) is assigned only in the
multi-year loop (line 1022) — and never returns a processed table. -/
theorem BIC_processing_single_year_unbound_local
    (process1 : ℤ → YearData) (availableYears : List ℤ) (n : ℤ) :
    BIC_processing process1 availableYears (YearSel.single n)
      = Except.error
          "UnboundLocalError: local variable y referenced before assignment" :=
  rfl

/-! ## C5: composite window extraction, padding and column alignment -/

theorem head?_filter_eq_find? {α : Type} (p : α → Bool) :
    ∀ l : List α, (l.filter p).head? = l.find? p
  | [] => rfl
  | x :: xs => by
      by_cases hx : p x <;>
        simp [List.filter_cons, List.find?_cons, hx,
          head?_filter_eq_find? p xs]

/-- A strictly increasing day index puts at most `2*dt + 1` samples into
the window `[BID - dt, BID + dt]`. -/
theorem windowRows_length_le (doy : List ℤ) (vals : List (Option ℚ))
    (b : ℤ) (dt : ℕ) (hp : doy.Pairwise (· < ·))
    (hlen : doy.length = vals.length) :
    (windowRows doy vals b dt).length ≤ 2 * dt + 1 := by
  classical
  unfold windowRows
  rw [List.length_map]
  set w := (doy.zip vals).filter
    (fun p => decide (b - dt ≤ p.1) && decide (p.1 ≤ b + dt)) with hw
  have hsub : List.Sublist w (doy.zip vals) := List.filter_sublist _
  have hfst : List.Sublist (w.map Prod.fst)
      ((doy.zip vals).map Prod.fst) := hsub.map _
  rw [List.map_fst_zip _ _ (le_of_eq hlen)] at hfst
  have hpair : (w.map Prod.fst).Pairwise (· < ·) := hp.sublist hfst
  have hnd : (w.map Prod.fst).Nodup := hpair.imp (fun h => ne_of_lt h)
  have hmem : ∀ x ∈ w.map Prod.fst,
      x ∈ Finset.Icc (b - (dt : ℤ)) (b + dt) := by
    intro x hx
    obtain ⟨q, hq, rfl⟩ := List.mem_map.1 hx
    have hqf := List.of_mem_filter hq
    simp only [Bool.and_eq_true, decide_eq_true_eq] at hqf
    exact Finset.mem_Icc.mpr hqf
  have hcard : (w.map Prod.fst).length
      ≤ (Finset.Icc (b - (dt : ℤ)) (b + dt)).card := by
    rw [← List.toFinset_card_of_nodup hnd]
    exact Finset.card_le_card (fun x hx => hmem x (List.mem_toFinset.1 hx))
  rw [Int.card_Icc, List.length_map] at hcard
  omega

/-- In a strictly increasing day index, the first sample of the window
filter is the sample at day `BID - dt` when that day is present. -/
theorem find?_zip_first (b : ℤ) (dt : ℕ) :
    ∀ (doy : List ℤ) (vals : List (Option ℚ)) (i : ℕ),
      doy.Pairwise (· < ·) → doy.get? i = some (b - dt) →
      i < vals.length →
      ∃ v, vals.get? i = some v ∧
        (doy.zip vals).find?
            (fun p => decide (b - (dt : ℤ) ≤ p.1) && decide (p.1 ≤ b + dt))
          = some (b - dt, v)
  | [], vals, i => by intro _ hi _; simp at hi
  | d :: ds, vals, 0 => by
      intro hp hi hv
      cases vals with
      | nil => simp at hv
      | cons v vs =>
          have hd : d = b - dt := by simpa using hi
          refine ⟨v, rfl, ?_⟩
          rw [List.zip_cons_cons]
          rw [List.find?_cons_of_pos _ (by
            subst hd
            simp only [Bool.and_eq_true, decide_eq_true_eq]
            constructor
            · omega
            · have : (0 : ℤ) ≤ (dt : ℤ) := Int.ofNat_nonneg dt
              omega)]
          rw [hd]
  | d :: ds, vals, (i + 1) => by
      intro hp hi hv
      cases vals with
      | nil => simp at hv
      | cons v vs =>
          have hpc := List.pairwise_cons.1 hp
          have hmem : (b - (dt : ℤ)) ∈ ds :=
            List.get?_mem (by simpa using hi)
          have hd : d < b - dt := hpc.1 _ hmem
          obtain ⟨v', hv', hf⟩ := find?_zip_first b dt ds vs i hpc.2
            (by simpa using hi) (by simpa using hv)
          refine ⟨v', by simpa using hv', ?_⟩
          rw [List.zip_cons_cons]
          rw [List.find?_cons_of_neg _ (by
            simp only [Bool.and_eq_true, decide_eq_true_eq, not_and]
            intro hc
            omega)]
          exact hf

/-- C5: for every qualifying station-year, the composite row is the
window `[BID - dt, BID + dt]` right-padded with missing values: it has
exactly `2*dt + 1` entries, every entry past the extracted window is
missing, the column labels run from `-dt` to `+dt`, and column 0 holds
the sample at day `BID - dt` whenever the series contains that day
(`hp`: the day-of-year column is strictly increasing, as in the daily
PROMICE tables; `hlen`: the day and value columns are parallel). -/
theorem composite_row_padding_alignment (doy : List ℤ)
    (vals : List (Option ℚ)) (b : ℤ) (dt : ℕ)
    (hp : doy.Pairwise (· < ·)) (hlen : doy.length = vals.length) :
    (compositeRow doy vals b dt).length = 2 * dt + 1 ∧
    (∀ j, (windowRows doy vals b dt).length ≤ j → j < 2 * dt + 1 →
      (compositeRow doy vals b dt).get? j = some none) ∧
    (compositeColumns dt).length = 2 * dt + 1 ∧
    (∀ j, j < 2 * dt + 1 →
      (compositeColumns dt).get? j = some ((j : ℤ) - dt)) ∧
    (∀ i, doy.get? i = some (b - dt) →
      (compositeRow doy vals b dt).get? 0 = vals.get? i) := by
  have hW := windowRows_length_le doy vals b dt hp hlen
  refine ⟨?_, ?_, ?_, ?_, ?_⟩
  · unfold compositeRow
    rw [List.length_append, List.length_replicate]
    omega
  · intro j hj1 hj2
    unfold compositeRow
    rw [List.get?_append_right hj1, List.get?_eq_getElem?,
      List.getElem?_replicate, if_pos (by omega)]
  · unfold compositeColumns
    rw [List.length_map, List.length_range]
  · intro j hj
    unfold compositeColumns
    rw [List.get?_map, List.get?_range hj]
    rfl
  · intro i hi
    have hilen : i < doy.length := (List.get?_eq_some.1 hi).1
    have hiv : i < vals.length := hlen ▸ hilen
    obtain ⟨v, hv, hfind⟩ := find?_zip_first b dt doy vals i hp hi hiv
    have hhead : (windowRows doy vals b dt).head? = some v := by
      unfold windowRows
      rw [List.head?_map, head?_filter_eq_find?, hfind]
      rfl
    have hne : 0 < (windowRows doy vals b dt).length := by
      cases hwr : windowRows doy vals b dt with
      | nil => rw [hwr] at hhead; simp at hhead
      | cons a l => simp
    unfold compositeRow
    rw [List.get?_append hne]
    rw [show (windowRows doy vals b dt).get? 0
        = (windowRows doy vals b dt).head? by
      cases windowRows doy vals b dt <;> rfl]
    rw [hhead, hv]

/-- Witness for C5 at a concrete two-sample station-year with
`BID = 97`, `dt = 45` (window `[52, 142]`). -/
theorem composite_row_padding_alignment_witness :
    (compositeRow [52, 53] [some 5, some 7] 97 45).length = 2 * 45 + 1 ∧
    (∀ j, (windowRows [52, 53] [some 5, some 7] 97 45).length ≤ j →
      j < 2 * 45 + 1 →
      (compositeRow [52, 53] [some 5, some 7] 97 45).get? j = some none) ∧
    (compositeColumns 45).length = 2 * 45 + 1 ∧
    (∀ j, j < 2 * 45 + 1 →
      (compositeColumns 45).get? j = some ((j : ℤ) - 45)) ∧
    (∀ i, ([52, 53] : List ℤ).get? i = some (97 - 45) →
      (compositeRow [52, 53] [some 5, some 7] 97 45).get? 0
        = ([some 5, some 7] : List (Option ℚ)).get? i) :=
  composite_row_padding_alignment [52, 53] [some 5, some 7] 97 45
    (by decide) (by decide)

/-! ## C6: boom-height re-baselining window, corrected -/

theorem filterMap_id_replicate_some (n : ℕ) (a : ℚ) :
    (List.replicate n (some a)).filterMap id = List.replicate n a := by
  induction n with
  | zero => rfl
  | succ k ih => simp [List.replicate_succ, ih]

theorem nanmean_replicate_some (n : ℕ) (a : ℚ) (hn : n ≠ 0) :
    nanmean (List.replicate n (some a)) = some a := by
  have h1 : (List.replicate n (some a)).filterMap id = List.replicate n a :=
    filterMap_id_replicate_some n a
  have hne : (List.replicate n (some a)).filterMap id ≠ [] := by
    rw [h1]
    simp [hn]
  rw [nanmean_eq_some _ hne, h1, List.sum_replicate, List.length_replicate]
  have hq : (n : ℚ) ≠ 0 := Nat.cast_ne_zero.mpr hn
  rw [nsmul_eq_mul]
  congr 1
  field_simp

/-- C6 (amended): the boom-height transform subtracts the padded row
from the nanmean of the row's positional slice `[dt+10 : dt+30]` — the
half-open Python slice, i.e. offsets `+10` through `+29` from BID, not
`[BID+10, BID+30]` — and afterwards the mean of the transformed row over
that same slice is 0, provided the slice holds at least one non-missing
sample. -/
theorem boom_rebaseline_slice_mean_zero (dt : ℕ) (row : List (Option ℚ))
    (h : ((row.drop (dt + 10)).take ((dt + 30) - (dt + 10))).filterMap id
        ≠ []) :
    nanmean (((boomTransform dt row).drop (dt + 10)).take
        ((dt + 30) - (dt + 10))) = some 0 := by
  have hslice : ((boomTransform dt row).drop (dt + 10)).take
        ((dt + 30) - (dt + 10))
      = ((row.drop (dt + 10)).take ((dt + 30) - (dt + 10))).map
          (fun v => osubR (nanmean ((row.drop (dt + 10)).take
            ((dt + 30) - (dt + 10)))) v) := by
    unfold boomTransform
    rw [← List.map_drop, ← List.map_take]
  rw [hslice]
  exact nanmean_centerR _ h

/-- Witness for the amended C6: a constant row makes the transformed
slice mean 0. -/
theorem boom_rebaseline_slice_mean_zero_witness :
    nanmean (((boomTransform 0 (List.replicate 31 (some (2:ℚ)))).drop
        (0 + 10)).take ((0 + 30) - (0 + 10))) = some 0 :=
  boom_rebaseline_slice_mean_zero 0 (List.replicate 31 (some 2)) (by
    rw [List.drop_replicate, List.take_replicate]
    rw [filterMap_id_replicate_some]
    simp)

/-- C6 counterexample: a padded 91-column composite row (`dt = 45`, the
default) that is 0 everywhere except at offset `+30` from BID, where it
is 21.  The code's re-baselining mean uses only offsets `+10..+29`, so
after the transform the mean over the claimed day window
`[BID+10, BID+30]` (offsets `+10..+30`, 21 samples) is −1, not 0. -/
theorem boom_rebaseline_day_window_mean_nonzero :
    nanmean (((boomTransform 45 (List.replicate 75 (some 0)
          ++ some 21 :: List.replicate 15 (some (0:ℚ)))).drop
        (45 + 10)).take 21) = some (-1) ∧
    (some (-1:ℚ)) ≠ some (0:ℚ) := by
  constructor
  · have hm : nanmean (((List.replicate 75 (some 0)
          ++ some 21 :: List.replicate 15 (some (0:ℚ))).drop (45 + 10)).take
            ((45 + 30) - (45 + 10)))
        = some 0 := by
      rw [List.drop_append_eq_append_drop, List.drop_replicate]
      norm_num
      exact nanmean_replicate_some 20 0 (by norm_num)
    unfold boomTransform
    rw [hm]
    show nanmean (((List.map (fun v => osubR (some 0) v)
        (List.replicate 75 (some 0) ++ some 21 :: List.replicate 15
          (some (0:ℚ)))).drop (45 + 10)).take 21) = some (-1)
    rw [← List.map_drop, ← List.map_take]
    rw [List.drop_append_eq_append_drop, List.drop_replicate]
    norm_num [osubR_some]
    rw [List.take_append_eq_append_take, List.take_replicate,
      List.length_replicate]
    norm_num
    have hne : ((List.replicate 20 (some (0:ℚ)) ++ [some (-21)]).filterMap id)
        = List.replicate 20 (0:ℚ) ++ [(-21:ℚ)] := by
      rw [List.filterMap_append, filterMap_id_replicate_some]
      rfl
    rw [nanmean_eq_some _ (by rw [hne]; simp), hne]
    norm_num [List.sum_replicate]
  · simp

/-! ## C9: first-year boom-height column mismatch -/

theorem Frame.col?_mapF (F : String → List (Option ℚ)) (t : String) :
    ∀ names : List String,
      Frame.col? (names.map (fun c => (c, F c))) t
        = if t ∈ names then some (F t) else none
  | [] => rfl
  | c :: cs => by
      by_cases hc : c = t
      · subst hc
        simp [Frame.col?, List.find?_cons]
      · have ih := Frame.col?_mapF F t cs
        unfold Frame.col? at ih ⊢
        rw [List.map_cons, List.find?_cons_of_neg _ (by simpa using hc)]
        rw [ih]
        by_cases hm : t ∈ cs
        · rw [if_pos hm, if_pos (List.mem_cons_of_mem _ hm)]
        · rw [if_neg hm, if_neg (by
            intro hcc
            rcases List.mem_cons.1 hcc with h1 | h1
            · exact hc h1.symm
            · exact hm h1)]

/-- pandas column alignment on `append`: looking up any column of the
appended frame concatenates the two operands' columns, NaN-filling the
side that lacks it. -/
theorem Frame.append_col? (f g : Frame) (t : String) :
    Frame.col? (Frame.append f g) t
      = if t ∈ f.map Prod.fst
            ++ (g.map Prod.fst).filter (fun c => !(f.map Prod.fst).contains c)
        then some (Frame.colOrNaN f t ++ Frame.colOrNaN g t) else none :=
  Frame.col?_mapF _ t _

theorem Frame.col?_isSome_of_mem (f : Frame) (t : String)
    (h : t ∈ f.map Prod.fst) : ∃ v, Frame.col? f t = some v := by
  unfold Frame.col?
  obtain ⟨p, hp, rfl⟩ := List.mem_map.1 h
  have hsome : (f.find? (fun q => q.1 == p.1)).isSome :=
    List.find?_isSome.2 ⟨p, hp, by simp⟩
  cases hfind : f.find? (fun q => q.1 == p.1) with
  | none => rw [hfind] at hsome; simp at hsome
  | some q => exact ⟨q.2, rfl⟩

/-- Invariant of the `BIC_processing` year loop: once the accumulated
frame has the ten column names, each further appended year extends
`HeightSensorBoom_m` by NaN rows only and `Height_sensor_boom_m` by that
year's boom data. -/
theorem loop_fold_cols :
    ∀ (rest : List YearData) (acc : Frame),
      acc.map Prod.fst = NAMES10 →
      ((rest.foldl (fun a d => Frame.append a (procFrame false d)) acc).map
          Prod.fst = NAMES10) ∧
      (∀ hb, Frame.col? acc "HeightSensorBoom_m" = some hb →
        Frame.col?
            (rest.foldl (fun a d => Frame.append a (procFrame false d)) acc)
            "HeightSensorBoom_m"
          = some (hb ++ List.replicate (rowsTotal rest) none)) ∧
      (∀ hs, Frame.col? acc "Height_sensor_boom_m" = some hs →
        Frame.col?
            (rest.foldl (fun a d => Frame.append a (procFrame false d)) acc)
            "Height_sensor_boom_m"
          = some (hs ++ rest.flatMap (fun d => d.boom)))
  | [], acc => by
      intro hacc
      refine ⟨hacc, ?_, ?_⟩ <;> intro v hv <;>
        simpa [rowsTotal] using hv
  | d :: rest, acc => by
      intro hacc
      have hgnames : (procFrame false d).map Prod.fst
          = ["DPT_proc", "DPT_flag", "BID", "DOY", "Year",
             "Air_temperature_C", "Albedo_theta_inf_70d", "Albedo_flag",
             "Height_sensor_boom_m"] := rfl
      have hcols : acc.map Prod.fst
            ++ ((procFrame false d).map Prod.fst).filter
              (fun c => !(acc.map Prod.fst).contains c)
          = NAMES10 := by
        rw [hacc, hgnames]
        rfl
      have hacc' : (Frame.append acc (procFrame false d)).map Prod.fst
          = NAMES10 := by
        unfold Frame.append
        rw [List.map_map]
        have : (Prod.fst ∘ fun c =>
            (c, Frame.colOrNaN acc c ++ Frame.colOrNaN (procFrame false d) c))
            = id := rfl
        rw [this, List.map_id]
        exact hcols
      have happ := fun t => Frame.append_col? acc (procFrame false d) t
      obtain ⟨ih1, ih2, ih3⟩ :=
        loop_fold_cols rest (Frame.append acc (procFrame false d)) hacc'
      refine ⟨ih1, ?_, ?_⟩
      · intro hb hhb
        have hmem : ("HeightSensorBoom_m" : String) ∈ acc.map Prod.fst
              ++ ((procFrame false d).map Prod.fst).filter
                (fun c => !(acc.map Prod.fst).contains c) := by
          rw [hcols]
          decide
        have hcol : Frame.col? (Frame.append acc (procFrame false d))
              "HeightSensorBoom_m"
            = some (hb ++ List.replicate d.DPT_proc.length none) := by
          rw [happ "HeightSensorBoom_m", if_pos hmem]
          have h1 : Frame.colOrNaN acc "HeightSensorBoom_m" = hb := by
            unfold Frame.colOrNaN
            rw [hhb]
          have h2 : Frame.colOrNaN (procFrame false d) "HeightSensorBoom_m"
              = List.replicate d.DPT_proc.length none := rfl
          rw [h1, h2]
        rw [List.foldl_cons, ih2 _ hcol]
        rw [List.append_assoc, ← List.replicate_add]
        rfl
      · intro hs hhs
        have hmem : ("Height_sensor_boom_m" : String) ∈ acc.map Prod.fst
              ++ ((procFrame false d).map Prod.fst).filter
                (fun c => !(acc.map Prod.fst).contains c) := by
          rw [hcols]
          decide
        have hcol : Frame.col? (Frame.append acc (procFrame false d))
              "Height_sensor_boom_m" = some (hs ++ d.boom) := by
          rw [happ "Height_sensor_boom_m", if_pos hmem]
          have h1 : Frame.colOrNaN acc "Height_sensor_boom_m" = hs := by
            unfold Frame.colOrNaN
            rw [hhs]
          have h2 : Frame.colOrNaN (procFrame false d) "Height_sensor_boom_m"
              = d.boom := rfl
          rw [h1, h2]
        rw [List.foldl_cons, ih3 _ hcol]
        rw [List.append_assoc]
        rfl

theorem compositeRow_replicate_none_all_missing (doyl : List ℤ) (n : ℕ)
    (bid : ℤ) (dt : ℕ) :
    ∀ x ∈ compositeRow doyl (List.replicate n (none : Option ℚ)) bid dt,
      x = none := by
  intro x hx
  unfold compositeRow at hx
  rcases List.mem_append.1 hx with hx | hx
  · unfold windowRows at hx
    obtain ⟨q, hq, rfl⟩ := List.mem_map.1 hx
    have hqz := List.mem_of_mem_filter hq
    exact List.eq_of_mem_replicate (List.of_mem_zip hqz).2
  · exact List.eq_of_mem_replicate hx

/-- C9: in the multi-year `BIC_processing` table, the first processed
year stores boom height under `HeightSensorBoom_m` while every
subsequent year stores it under `Height_sensor_boom_m`; `BIC_composite`
reads only `Height_sensor_boom_m`, under which the first year's rows are
all missing, so the first processed year of every station contributes an
all-missing snow-height row to the composite. -/
theorem first_year_boom_all_missing (d0 : YearData) (rest : List YearData) :
    (Frame.col? (BIC_processing_loop (d0 :: rest)) "Height_sensor_boom_m"
      = if rest.isEmpty then none
        else some (List.replicate d0.DPT_proc.length none
            ++ rest.flatMap (fun d => d.boom))) ∧
    (Frame.col? (BIC_processing_loop (d0 :: rest)) "HeightSensorBoom_m"
      = some (d0.boom ++ List.replicate (rowsTotal rest) none)) ∧
    ("snow_height_meters", "Height_sensor_boom_m") ∈ BIC_variables ∧
    (∀ (doyl : List ℤ) (bid : ℤ) (dt n : ℕ),
      (boomTransform dt (compositeRow doyl
          (List.replicate n (none : Option ℚ)) bid dt)).all Option.isNone
        = true) := by
  refine ⟨?_, ?_, ?_, ?_⟩
  · cases rest with
    | nil => rfl
    | cons d1 rest' =>
        obtain ⟨_, _, ih3⟩ := loop_fold_cols rest'
          (Frame.append (procFrame true d0) (procFrame false d1)) rfl
        have hcol : Frame.col?
              (Frame.append (procFrame true d0) (procFrame false d1))
              "Height_sensor_boom_m"
            = some (List.replicate d0.DPT_proc.length none ++ d1.boom) := rfl
        show Frame.col? (rest'.foldl
            (fun a d => Frame.append a (procFrame false d))
            (Frame.append (procFrame true d0) (procFrame false d1)))
            "Height_sensor_boom_m" = _
        rw [ih3 _ hcol]
        simp [List.append_assoc]
  · cases rest with
    | nil =>
        show Frame.col? (procFrame true d0) "HeightSensorBoom_m"
          = some (d0.boom ++ List.replicate (rowsTotal []) none)
        have : Frame.col? (procFrame true d0) "HeightSensorBoom_m"
            = some d0.boom := rfl
        rw [this]
        simp [rowsTotal]
    | cons d1 rest' =>
        obtain ⟨_, ih2, _⟩ := loop_fold_cols rest'
          (Frame.append (procFrame true d0) (procFrame false d1)) rfl
        have hcol : Frame.col?
              (Frame.append (procFrame true d0) (procFrame false d1))
              "HeightSensorBoom_m"
            = some (d0.boom ++ List.replicate d1.DPT_proc.length none) := rfl
        show Frame.col? (rest'.foldl
            (fun a d => Frame.append a (procFrame false d))
            (Frame.append (procFrame true d0) (procFrame false d1)))
            "HeightSensorBoom_m" = _
        rw [ih2 _ hcol]
        rw [List.append_assoc, ← List.replicate_add]
        rfl
  · decide
  · intro doyl bid dt n
    rw [List.all_eq_true]
    intro y hy
    unfold boomTransform at hy
    obtain ⟨x, hx, rfl⟩ := List.mem_map.1 hy
    have hxn : x = none :=
      compositeRow_replicate_none_all_missing doyl n bid dt x hx
    rw [osubR_none_right _ _ hxn]
    rfl

end PROMICE
